import Mathlib

/-!
Shallow embedding of `src/browser/commands/openAndWait.ts` (the `openAndWait`
browser command): option resolution, the blank-page bypass, the default
network-error classification, and the event-driven settlement machine built on
JS promise semantics (a promise settles at most once; later `resolve`/`reject`
calls are no-ops).
-/

/-- JS `String.prototype.startsWith` on character lists. -/
def charsStartWith : List Char → List Char → Bool
  | _, [] => true
  | [], _ :: _ => false
  | c :: cs, d :: ds => c == d && charsStartWith cs ds

/-- Substring occurrence on character lists (JS `String.prototype.includes`). -/
def charsContain (cs sub : List Char) : Bool :=
  match cs with
  | [] => sub.isEmpty
  | _ :: rest => charsStartWith cs sub || charsContain rest sub

/-- JS `str.includes(sub)`: substring containment. -/
def jsIncludes (s sub : String) : Bool :=
  charsContain s.data sub.data

/-- JS `str.endsWith(suffix)`. -/
def jsEndsWith (s suffix : String) : Bool :=
  charsStartWith s.data.reverse suffix.data.reverse

/-- An entry of `ignoreNetworkErrorsPatterns`: `Array<RegExp | string>`. A string
is matched by `str.includes(pattern)`; a `RegExp` is modelled by its match
function (`pattern.exec(str)` is truthy exactly when the regex matches `str`). -/
inductive Pattern where
  | str (s : String)
  | regex (test : String → Bool)

/-- `isMatchPatterns(patterns, str)` from openAndWait.ts:
`patterns.some(pattern => (_.isString(pattern) ? str.includes(pattern) : pattern.exec(str)))`. -/
def isMatchPatterns (patterns : List Pattern) (str : String) : Bool :=
  patterns.any (fun pattern =>
    match pattern with
    | .str p => jsIncludes str p
    | .regex test => test str)

/-- The slice of the webdriverio `Matches` record that openAndWait reads: the
request `url` (typed `string`, so the `_.isString(match.url)` guards hold),
`headers?.Accept` (collapsed into `acceptHeader`, `none` when `headers` or
`Accept` is absent), and `statusCode`. -/
structure Matches where
  url : String
  acceptHeader : Option String
  statusCode : Nat

/-- `is.image`: `match.headers?.Accept?.includes("image")` (falsy when absent). -/
def is.image (m : Matches) : Bool :=
  match m.acceptHeader with
  | some a => jsIncludes a "image"
  | none => false

/-- `is.stylesheet`: `match.headers?.Accept?.includes("text/css")`. -/
def is.stylesheet (m : Matches) : Bool :=
  match m.acceptHeader with
  | some a => jsIncludes a "text/css"
  | none => false

/-- `is.font`: url ends with `.ttf`, `.woff` or `.woff2`. -/
def is.font (m : Matches) : Bool :=
  [".ttf", ".woff", ".woff2"].any (fun ext => jsEndsWith m.url ext)

/-- `is.favicon`: url ends with `/favicon.ico`. -/
def is.favicon (m : Matches) : Bool :=
  jsEndsWith m.url "/favicon.ico"

/-- `shouldThrowErrorDefault` from openAndWait.ts: favicon is never fatal;
otherwise a match is fatal exactly when it is an image, stylesheet or font. -/
def shouldThrowErrorDefault (m : Matches) : Bool :=
  if is.favicon m then false
  else is.image m || is.stylesheet m || is.font m

/-- `config.automationProtocol`: `"webdriver" | "devtools"`. -/
inductive AutomationProtocol where
  | webdriver
  | devtools
deriving DecidableEq, BEq

/-- `config.openAndWaitOpts` (session-level defaults). -/
structure OpenAndWaitOpts where
  timeout : Option Nat
  waitNetworkIdle : Bool
  waitNetworkIdleTimeout : Nat
  failOnNetworkError : Bool
  ignoreNetworkErrorsPatterns : List Pattern

/-- The parts of `browser.config` that openAndWait reads. -/
structure Config where
  browserName : String
  automationProtocol : AutomationProtocol
  pageLoadTimeout : Nat
  openAndWaitOpts : OpenAndWaitOpts

/-- `isChrome`: `config.desiredCapabilities.browserName === "chrome"`. -/
def isChrome (cfg : Config) : Bool :=
  cfg.browserName == "chrome"

/-- `isCDP`: `config.automationProtocol === "devtools"`. -/
def isCDP (cfg : Config) : Bool :=
  cfg.automationProtocol == .devtools

/-- A caller-supplied `selector`: one string or an array of strings. -/
inductive SelectorArg where
  | one (s : String)
  | many (l : List String)

/-- Caller options (`WaitOpts`); `none` marks an omitted field, so the defaults
of the destructuring apply. The predicate and `shouldThrowError` functions are
kept only as far as openAndWait itself inspects them: the predicate only for
presence (`Option Unit`), the classifier as a `Matches → Bool`. -/
structure WaitOpts where
  selector : Option SelectorArg
  predicate : Option Unit
  waitNetworkIdle : Option Bool
  waitNetworkIdleTimeout : Option Nat
  failOnNetworkError : Option Bool
  shouldThrowError : Option (Matches → Bool)
  ignoreNetworkErrorsPatterns : Option (List Pattern)
  timeout : Option Nat

/-- `const emptyPageUrl = "about:blank"`. -/
def emptyPageUrl : String := "about:blank"

/-- `typeof selector === "string" ? [selector] : selector`, with the
destructuring default `selector = []`. -/
def normalizeSelector : Option SelectorArg → List String
  | none => []
  | some (.one s) => [s]
  | some (.many l) => l

/-- The options handed to `new PageLoader(session, ...)`. -/
structure PageLoaderOpts where
  selectors : List String
  predicate : Option Unit
  timeout : Nat
  waitNetworkIdle : Bool
  waitNetworkIdleTimeout : Nat

/-- The resolved inputs of the `networkError` handler. -/
structure NetworkParams where
  failOnNetworkError : Bool
  ignoreNetworkErrorsPatterns : List Pattern
  shouldThrowError : Matches → Bool

/-- The three readiness flags (`selectorsResolved`, `predicateResolved`,
`networkResolved`). -/
structure ReadinessState where
  selectorsResolved : Bool
  predicateResolved : Bool
  networkResolved : Bool
deriving DecidableEq

/-- What one invocation of openAndWait sets up: either the blank/empty-uri
bypass (no `PageLoader` is constructed, no watcher armed), or a `PageLoader`
with its options, the resolved network-error parameters, and the initial
readiness flags. -/
inductive OpenSpec where
  | blank (uri : String)
  | loaded (plOpts : PageLoaderOpts) (params : NetworkParams) (init : ReadinessState)

/-- Option resolution and setup of `openAndWait(uri, {...})`: destructuring
defaults from `openAndWaitOpts` / `pageLoadTimeout`, the capability downgrade
`waitNetworkIdle &&= isChrome || isCDP`, the blank-page bypass
`if (!uri || uri === emptyPageUrl)`, selector normalization, and the initial
flags `!selectors.length`, `!predicate`, `!waitNetworkIdle`. -/
def openAndWait (cfg : Config) (uri : String) (w : WaitOpts) : OpenSpec :=
  let waitNetworkIdle0 := w.waitNetworkIdle.getD cfg.openAndWaitOpts.waitNetworkIdle
  let waitNetworkIdleTimeout := w.waitNetworkIdleTimeout.getD cfg.openAndWaitOpts.waitNetworkIdleTimeout
  let failOnNetworkError := w.failOnNetworkError.getD cfg.openAndWaitOpts.failOnNetworkError
  let shouldThrowError := w.shouldThrowError.getD shouldThrowErrorDefault
  let ignoreNetworkErrorsPatterns :=
    w.ignoreNetworkErrorsPatterns.getD cfg.openAndWaitOpts.ignoreNetworkErrorsPatterns
  let timeout := w.timeout.getD
    (match cfg.openAndWaitOpts.timeout with
     | some t => if t == 0 then cfg.pageLoadTimeout else t
     | none => cfg.pageLoadTimeout)
  let waitNetworkIdle := waitNetworkIdle0 && (isChrome cfg || isCDP cfg)
  if uri == "" || uri == emptyPageUrl then
    .blank uri
  else
    let selectors := normalizeSelector w.selector
    .loaded
      { selectors := selectors, predicate := w.predicate, timeout := timeout,
        waitNetworkIdle := waitNetworkIdle, waitNetworkIdleTimeout := waitNetworkIdleTimeout }
      { failOnNetworkError := failOnNetworkError,
        ignoreNetworkErrorsPatterns := ignoreNetworkErrorsPatterns,
        shouldThrowError := shouldThrowError }
      { selectorsResolved := selectors.isEmpty,
        predicateResolved := w.predicate.isNone,
        networkResolved := !waitNetworkIdle }

/-- Outcome of the returned promise. -/
inductive Outcome where
  | success
  | failure (msg : String)
deriving DecidableEq

/-- Promise plus readiness flags: `settled = none` while pending. -/
structure MachineState where
  flags : ReadinessState
  settled : Option Outcome
deriving DecidableEq

/-- The events the PageLoader can emit into the handlers of openAndWait,
plus `loadDone` for `pageLoader.load(goToPage).then(checkLoaded)`. -/
inductive LoadEvent where
  | pageLoadError (msg : String)
  | selectorsError (msg : String)
  | predicateError (msg : String)
  | networkError (m : Matches)
  | selectorsExist
  | predicateResolved
  | networkResolved
  | loadDone

/-- JS promise `resolve()`: settles with success only while pending. -/
def promiseResolve (s : MachineState) : MachineState :=
  match s.settled with
  | none => { s with settled := some .success }
  | some _ => s

/-- JS promise `reject(new Error(msg))`: settles with failure only while pending. -/
def promiseReject (msg : String) (s : MachineState) : MachineState :=
  match s.settled with
  | none => { s with settled := some (.failure msg) }
  | some _ => s

/-- `checkLoaded`: resolve once all three flags are set. -/
def checkLoaded (s : MachineState) : MachineState :=
  if s.flags.selectorsResolved && s.flags.predicateResolved && s.flags.networkResolved then
    promiseResolve s
  else s

/-- `handleError`: `reject(new Error("url: " + err.message))`. -/
def handleError (msg : String) (s : MachineState) : MachineState :=
  promiseReject ("url: " ++ msg) s

/-- The message of the network-error rejection:
`"couldn't get content from <url>: <statusCode>"` prefixed by `url: `. -/
def networkErrorMessage (m : Matches) : String :=
  "url: couldn't get content from " ++ m.url ++ ": " ++ toString m.statusCode

/-- One event through the handlers registered by openAndWait. -/
def handleEvent (p : NetworkParams) (s : MachineState) (e : LoadEvent) : MachineState :=
  match e with
  | .pageLoadError msg => handleError msg s
  | .selectorsError msg => handleError msg s
  | .predicateError msg => handleError msg s
  | .networkError m =>
      if !p.failOnNetworkError then s
      else
        let shouldIgnore := isMatchPatterns p.ignoreNetworkErrorsPatterns m.url
        if !shouldIgnore && p.shouldThrowError m then
          promiseReject (networkErrorMessage m) s
        else s
  | .selectorsExist =>
      checkLoaded { s with flags := { s.flags with selectorsResolved := true } }
  | .predicateResolved =>
      checkLoaded { s with flags := { s.flags with predicateResolved := true } }
  | .networkResolved =>
      checkLoaded { s with flags := { s.flags with networkResolved := true } }
  | .loadDone => checkLoaded s

/-- Fold a sequence of emitted events through the handlers. -/
def run (p : NetworkParams) (s : MachineState) : List LoadEvent → MachineState
  | [] => s
  | e :: es => run p (handleEvent p s e) es

/-- Outcome of the navigation primitive `session.url(uri)`. -/
inductive NavOutcome where
  | ok
  | fail (msg : String)

/-- The blank/empty-uri path:
`new Promise(resolve => { session.url(uri).then(() => resolve()); })` —
resolves when navigation resolves; a navigation failure has no handler, so the
returned promise stays pending. -/
def blankSettle : NavOutcome → Option Outcome
  | .ok => some .success
  | .fail _ => none

/-- Modelled from the spec: `PageLoader` (src/utils/page-loader.ts, absent from
the sources; only this caller is available) invokes the navigation action from
`load` and surfaces a navigation failure as the navigation-error
(`pageLoadError`) event carrying the navigation error; on success `load`
resolves and `then(checkLoaded)` runs (`loadDone`). -/
def pageLoaderNavEvents : NavOutcome → List LoadEvent
  | .ok => [.loadDone]
  | .fail msg => [.pageLoadError msg]

/-- Outcome of one whole invocation: the navigation outcome followed by any
further watcher events (`evs`, empty in the blank bypass, which arms no
watcher). -/
def openAndWaitRun (cfg : Config) (uri : String) (w : WaitOpts) (nav : NavOutcome)
    (evs : List LoadEvent) : Option Outcome :=
  match openAndWait cfg uri w with
  | .blank _ => blankSettle nav
  | .loaded _ p init =>
      (run p { flags := init, settled := none } (pageLoaderNavEvents nav ++ evs)).settled

/-- Session capability for network observation, as the claims phrase it:
browser name `"chrome"` or automation protocol `devtools`. -/
def sessionCapability (cfg : Config) : Bool :=
  cfg.browserName == "chrome" || cfg.automationProtocol == .devtools

/-- All three readiness flags set. -/
def allResolved (s : MachineState) : Bool :=
  s.flags.selectorsResolved && s.flags.predicateResolved && s.flags.networkResolved

/-- The events whose handlers end in `checkLoaded`. -/
def isCheckEvent : LoadEvent → Bool
  | .selectorsExist => true
  | .predicateResolved => true
  | .networkResolved => true
  | .loadDone => true
  | _ => false

/-- The rejection message an event produces when it is an unfiltered error
signal under `p`, `none` otherwise. -/
def fatalMessage (p : NetworkParams) : LoadEvent → Option String
  | .pageLoadError msg => some ("url: " ++ msg)
  | .selectorsError msg => some ("url: " ++ msg)
  | .predicateError msg => some ("url: " ++ msg)
  | .networkError m =>
      if p.failOnNetworkError
          && !isMatchPatterns p.ignoreNetworkErrorsPatterns m.url
          && p.shouldThrowError m then
        some (networkErrorMessage m)
      else none
  | _ => none

/-! Helper lemmas on the settlement machine. -/

lemma promiseResolve_of_some (s : MachineState) (o : Outcome) (h : s.settled = some o) :
    promiseResolve s = s := by
  obtain ⟨fl, st⟩ := s
  cases st with
  | none => simp at h
  | some o2 => rfl

lemma promiseReject_of_some (msg : String) (s : MachineState) (o : Outcome)
    (h : s.settled = some o) : promiseReject msg s = s := by
  obtain ⟨fl, st⟩ := s
  cases st with
  | none => simp at h
  | some o2 => rfl

lemma promiseResolve_of_none (s : MachineState) (h : s.settled = none) :
    promiseResolve s = { s with settled := some .success } := by
  obtain ⟨fl, st⟩ := s
  cases st with
  | none => rfl
  | some o2 => simp at h

lemma promiseReject_of_none (msg : String) (s : MachineState) (h : s.settled = none) :
    promiseReject msg s = { s with settled := some (.failure msg) } := by
  obtain ⟨fl, st⟩ := s
  cases st with
  | none => rfl
  | some o2 => simp at h

lemma promiseResolve_flags (s : MachineState) : (promiseResolve s).flags = s.flags := by
  obtain ⟨fl, st⟩ := s
  cases st <;> rfl

lemma promiseReject_flags (msg : String) (s : MachineState) :
    (promiseReject msg s).flags = s.flags := by
  obtain ⟨fl, st⟩ := s
  cases st <;> rfl

lemma checkLoaded_flags (s : MachineState) : (checkLoaded s).flags = s.flags := by
  unfold checkLoaded
  split
  · exact promiseResolve_flags s
  · rfl

lemma checkLoaded_of_some (s : MachineState) (o : Outcome) (h : s.settled = some o) :
    checkLoaded s = s := by
  unfold checkLoaded
  split
  · exact promiseResolve_of_some s o h
  · rfl

lemma checkLoaded_settled_of_some (s : MachineState) (o : Outcome) (h : s.settled = some o) :
    (checkLoaded s).settled = some o := by
  rw [checkLoaded_of_some s o h]
  exact h

lemma handleEvent_of_some (p : NetworkParams) (s : MachineState) (e : LoadEvent) (o : Outcome)
    (h : s.settled = some o) : (handleEvent p s e).settled = some o := by
  cases e with
  | pageLoadError msg => rw [handleEvent, handleError, promiseReject_of_some _ s o h]; exact h
  | selectorsError msg => rw [handleEvent, handleError, promiseReject_of_some _ s o h]; exact h
  | predicateError msg => rw [handleEvent, handleError, promiseReject_of_some _ s o h]; exact h
  | networkError m =>
      simp only [handleEvent]
      split
      · exact h
      · split
        · rw [promiseReject_of_some _ s o h]; exact h
        · exact h
  | selectorsExist =>
      rw [handleEvent]
      exact checkLoaded_settled_of_some _ o h
  | predicateResolved =>
      rw [handleEvent]
      exact checkLoaded_settled_of_some _ o h
  | networkResolved =>
      rw [handleEvent]
      exact checkLoaded_settled_of_some _ o h
  | loadDone =>
      rw [handleEvent]
      exact checkLoaded_settled_of_some s o h

lemma run_of_some (p : NetworkParams) (evs : List LoadEvent) :
    ∀ (s : MachineState) (o : Outcome), s.settled = some o → (run p s evs).settled = some o := by
  induction evs with
  | nil => intro s o h; exact h
  | cons e es ih => intro s o h; exact ih (handleEvent p s e) o (handleEvent_of_some p s e o h)

lemma checkLoaded_pos (s : MachineState)
    (hc : (s.flags.selectorsResolved && s.flags.predicateResolved && s.flags.networkResolved)
      = true) : checkLoaded s = promiseResolve s := by
  unfold checkLoaded
  rw [if_pos hc]

lemma checkLoaded_neg (s : MachineState)
    (hc : ¬ (s.flags.selectorsResolved && s.flags.predicateResolved && s.flags.networkResolved)
      = true) : checkLoaded s = s := by
  unfold checkLoaded
  rw [if_neg hc]

lemma allResolved_flags_eq (s t : MachineState) (h : t.flags = s.flags) :
    allResolved t = allResolved s := by
  unfold allResolved
  rw [h]

lemma handleEvent_networkError_cases (p : NetworkParams) (s : MachineState) (m : Matches) :
    handleEvent p s (.networkError m) = s
      ∨ handleEvent p s (.networkError m) = promiseReject (networkErrorMessage m) s := by
  simp only [handleEvent]
  split
  · exact Or.inl rfl
  · split
    · exact Or.inr rfl
    · exact Or.inl rfl

lemma checkLoaded_success_inv (s : MachineState)
    (hInv : s.settled = some Outcome.success → allResolved s = true)
    (h2 : (checkLoaded s).settled = some Outcome.success) :
    allResolved (checkLoaded s) = true := by
  by_cases hc :
    (s.flags.selectorsResolved && s.flags.predicateResolved && s.flags.networkResolved) = true
  · rw [checkLoaded_pos s hc, allResolved_flags_eq s (promiseResolve s) (promiseResolve_flags s)]
    exact hc
  · rw [checkLoaded_neg s hc] at h2 ⊢
    exact hInv h2

lemma checkLoaded_resolves (s : MachineState) (hn : s.settled = none)
    (hall : allResolved (checkLoaded s) = true) :
    (checkLoaded s).settled = some Outcome.success := by
  by_cases hc :
    (s.flags.selectorsResolved && s.flags.predicateResolved && s.flags.networkResolved) = true
  · rw [checkLoaded_pos s hc, promiseResolve_of_none s hn]
  · rw [checkLoaded_neg s hc] at hall
    exact absurd hall hc

lemma allResolved_update_sel (s : MachineState) (h : allResolved s = true) :
    allResolved { s with flags := { s.flags with selectorsResolved := true } } = true := by
  simp only [allResolved, Bool.and_eq_true] at h ⊢
  exact ⟨⟨trivial, h.1.2⟩, h.2⟩

lemma allResolved_update_pred (s : MachineState) (h : allResolved s = true) :
    allResolved { s with flags := { s.flags with predicateResolved := true } } = true := by
  simp only [allResolved, Bool.and_eq_true] at h ⊢
  exact ⟨⟨h.1.1, trivial⟩, h.2⟩

lemma allResolved_update_net (s : MachineState) (h : allResolved s = true) :
    allResolved { s with flags := { s.flags with networkResolved := true } } = true := by
  simp only [allResolved, Bool.and_eq_true] at h ⊢
  exact ⟨⟨h.1.1, h.1.2⟩, trivial⟩

lemma handleEvent_success_inv (p : NetworkParams) (s : MachineState) (e : LoadEvent)
    (hInv : s.settled = some Outcome.success → allResolved s = true)
    (h2 : (handleEvent p s e).settled = some Outcome.success) :
    allResolved (handleEvent p s e) = true := by
  cases e with
  | pageLoadError msg =>
      rw [handleEvent, handleError] at h2 ⊢
      cases hs : s.settled with
      | none => rw [promiseReject_of_none _ s hs] at h2; simp at h2
      | some o =>
          rw [promiseReject_of_some _ s o hs] at h2 ⊢
          exact hInv h2
  | selectorsError msg =>
      rw [handleEvent, handleError] at h2 ⊢
      cases hs : s.settled with
      | none => rw [promiseReject_of_none _ s hs] at h2; simp at h2
      | some o =>
          rw [promiseReject_of_some _ s o hs] at h2 ⊢
          exact hInv h2
  | predicateError msg =>
      rw [handleEvent, handleError] at h2 ⊢
      cases hs : s.settled with
      | none => rw [promiseReject_of_none _ s hs] at h2; simp at h2
      | some o =>
          rw [promiseReject_of_some _ s o hs] at h2 ⊢
          exact hInv h2
  | networkError m =>
      rcases handleEvent_networkError_cases p s m with hcase | hcase <;> rw [hcase] at h2 ⊢
      · exact hInv h2
      · cases hs : s.settled with
        | none => rw [promiseReject_of_none _ s hs] at h2; simp at h2
        | some o =>
            rw [promiseReject_of_some _ s o hs] at h2 ⊢
            exact hInv h2
  | selectorsExist =>
      rw [handleEvent] at h2 ⊢
      refine checkLoaded_success_inv _ (fun hsucc => ?_) h2
      exact allResolved_update_sel s (hInv hsucc)
  | predicateResolved =>
      rw [handleEvent] at h2 ⊢
      refine checkLoaded_success_inv _ (fun hsucc => ?_) h2
      exact allResolved_update_pred s (hInv hsucc)
  | networkResolved =>
      rw [handleEvent] at h2 ⊢
      refine checkLoaded_success_inv _ (fun hsucc => ?_) h2
      exact allResolved_update_net s (hInv hsucc)
  | loadDone =>
      rw [handleEvent] at h2 ⊢
      exact checkLoaded_success_inv s hInv h2

lemma run_success_inv (p : NetworkParams) (evs : List LoadEvent) :
    ∀ s : MachineState, (s.settled = some Outcome.success → allResolved s = true) →
      (run p s evs).settled = some Outcome.success → allResolved (run p s evs) = true := by
  induction evs with
  | nil => intro s h; exact h
  | cons e es ih =>
      intro s h
      exact ih (handleEvent p s e) (handleEvent_success_inv p s e h)

lemma handleEvent_fatal (p : NetworkParams) (s : MachineState) (e : LoadEvent) (msg : String)
    (hn : s.settled = none) (hf : fatalMessage p e = some msg) :
    (handleEvent p s e).settled = some (Outcome.failure msg) := by
  cases e with
  | pageLoadError m0 =>
      simp only [fatalMessage, Option.some.injEq] at hf
      subst hf
      rw [handleEvent, handleError, promiseReject_of_none _ s hn]
  | selectorsError m0 =>
      simp only [fatalMessage, Option.some.injEq] at hf
      subst hf
      rw [handleEvent, handleError, promiseReject_of_none _ s hn]
  | predicateError m0 =>
      simp only [fatalMessage, Option.some.injEq] at hf
      subst hf
      rw [handleEvent, handleError, promiseReject_of_none _ s hn]
  | networkError m =>
      simp only [fatalMessage] at hf
      split at hf
      · rename_i hcond
        simp only [Option.some.injEq] at hf
        subst hf
        simp only [Bool.and_eq_true] at hcond
        obtain ⟨⟨ha, hb⟩, hc⟩ := hcond
        simp only [handleEvent]
        rw [if_neg (by simp [ha]), if_pos (by simp [hb, hc]), promiseReject_of_none _ s hn]
      · exact absurd hf (by simp)
  | selectorsExist => simp [fatalMessage] at hf
  | predicateResolved => simp [fatalMessage] at hf
  | networkResolved => simp [fatalMessage] at hf
  | loadDone => simp [fatalMessage] at hf

/-! Concrete sample sessions and options used by witnesses. -/

/-- Session defaults with every network feature off. -/
def sampleOpts : OpenAndWaitOpts :=
  { timeout := none, waitNetworkIdle := false, waitNetworkIdleTimeout := 500,
    failOnNetworkError := false, ignoreNetworkErrorsPatterns := [] }

/-- A session without network-observation capability. -/
def firefoxCfg : Config :=
  { browserName := "firefox", automationProtocol := .webdriver, pageLoadTimeout := 2000,
    openAndWaitOpts := sampleOpts }

/-- A session with network-observation capability (chrome). -/
def chromeCfg : Config :=
  { browserName := "chrome", automationProtocol := .webdriver, pageLoadTimeout := 2000,
    openAndWaitOpts := sampleOpts }

/-- A call of `openAndWait` with every option omitted. -/
def emptyWaitOpts : WaitOpts :=
  { selector := none, predicate := none, waitNetworkIdle := none,
    waitNetworkIdleTimeout := none, failOnNetworkError := none, shouldThrowError := none,
    ignoreNetworkErrorsPatterns := none, timeout := none }

/-- C1: the effective `waitNetworkIdle` flag of the constructed PageLoader is
the logical AND of the caller-intended value (caller option, defaulting to the
session option) and the session capability (browser name `"chrome"` or
devtools protocol); when the capability is absent the flag is disabled and
`networkResolved` starts true, so the operation never waits on network idle. -/
theorem effective_waitNetworkIdle_is_and_of_intent_and_capability
    (cfg : Config) (uri : String) (w : WaitOpts)
    (plOpts : PageLoaderOpts) (p : NetworkParams) (init : ReadinessState)
    (h : openAndWait cfg uri w = .loaded plOpts p init) :
    plOpts.waitNetworkIdle
        = ((w.waitNetworkIdle.getD cfg.openAndWaitOpts.waitNetworkIdle) && sessionCapability cfg)
      ∧ (sessionCapability cfg = false →
          plOpts.waitNetworkIdle = false ∧ init.networkResolved = true) := by
  simp only [openAndWait] at h
  split at h
  · exact absurd h (by simp)
  · injection h with h1 h2 h3
    subst h1
    subst h3
    have hcap : sessionCapability cfg = (isChrome cfg || isCDP cfg) := rfl
    constructor
    · simp [hcap]
    · intro hc
      rw [hcap] at hc
      simp [hc]

/-- Witness for C1: a firefox/webdriver session with `waitNetworkIdle`
requested true still gets the network flag disabled and `networkResolved`
initialized true. -/
theorem effective_waitNetworkIdle_is_and_of_intent_and_capability_witness :
    ({ selectors := [], predicate := none, timeout := 2000, waitNetworkIdle := false,
       waitNetworkIdleTimeout := 500 } : PageLoaderOpts).waitNetworkIdle = false
    ∧ ({ selectorsResolved := true, predicateResolved := true,
         networkResolved := true } : ReadinessState).networkResolved = true :=
  (effective_waitNetworkIdle_is_and_of_intent_and_capability firefoxCfg "https://example.com"
    { emptyWaitOpts with waitNetworkIdle := some true } _ _ _ rfl).2 rfl

/-- C2: for an empty uri or `about:blank`, openAndWait bypasses all watcher
logic (no PageLoader is constructed: the setup is `OpenSpec.blank`) and the
invocation resolves as soon as the navigation call completes, whatever further
events exist. -/
theorem blank_uri_bypasses_watchers (cfg : Config) (uri : String) (w : WaitOpts)
    (h : uri = "" ∨ uri = emptyPageUrl) :
    openAndWait cfg uri w = .blank uri
    ∧ (∀ evs : List LoadEvent, openAndWaitRun cfg uri w .ok evs = some Outcome.success) := by
  have hcond : (uri == "" || uri == emptyPageUrl) = true := by
    rcases h with h | h <;> subst h <;> decide
  constructor
  · simp [openAndWait, hcond]
  · intro evs
    simp [openAndWaitRun, openAndWait, hcond, blankSettle]

/-- Witness for C2 at `uri = "about:blank"` with a pending watcher event. -/
theorem blank_uri_bypasses_watchers_witness :
    openAndWait chromeCfg "about:blank" emptyWaitOpts = .blank "about:blank"
    ∧ openAndWaitRun chromeCfg "about:blank" emptyWaitOpts .ok [.selectorsExist]
        = some Outcome.success :=
  ⟨(blank_uri_bypasses_watchers chromeCfg "about:blank" emptyWaitOpts (Or.inr rfl)).1,
   (blank_uri_bypasses_watchers chromeCfg "about:blank" emptyWaitOpts (Or.inr rfl)).2
     [.selectorsExist]⟩

/-- Counterexample to C3 as stated: on the blank-page address the navigation
failure has no handler (`session.url(uri).then(() => resolve())` attaches no
rejection handler), so the invocation stays pending and in particular does not
reject with `"url: " + <navigation error message>`. -/
theorem blank_nav_failure_never_rejects :
    openAndWaitRun chromeCfg "about:blank" emptyWaitOpts
        (.fail "net::ERR_NAME_NOT_RESOLVED") [] = none
    ∧ (none : Option Outcome)
        ≠ some (.failure ("url: " ++ "net::ERR_NAME_NOT_RESOLVED")) :=
  ⟨rfl, by simp⟩

/-- C3 (amended): for every invocation whose uri is neither empty nor the
blank-page address (so a PageLoader is set up), a navigation failure rejects
the operation with message `"url: "` concatenated with the navigation error
message, whatever events follow. -/
theorem nonblank_nav_failure_rejects (cfg : Config) (uri : String) (w : WaitOpts)
    (plOpts : PageLoaderOpts) (p : NetworkParams) (init : ReadinessState) (msg : String)
    (h : openAndWait cfg uri w = .loaded plOpts p init) (evs : List LoadEvent) :
    openAndWaitRun cfg uri w (.fail msg) evs = some (.failure ("url: " ++ msg)) := by
  simp only [openAndWaitRun, h, pageLoaderNavEvents, List.singleton_append]
  refine run_of_some p evs _ _ ?_
  rw [handleEvent, handleError, promiseReject_of_none _ _ rfl]

/-- Witness for C3 (amended): a non-blank uri whose navigation fails. -/
theorem nonblank_nav_failure_rejects_witness :
    openAndWaitRun chromeCfg "https://example.com" emptyWaitOpts (.fail "boom") []
        = some (.failure ("url: " ++ "boom")) :=
  nonblank_nav_failure_rejects chromeCfg "https://example.com" emptyWaitOpts _ _ _ "boom" rfl []

/-- C8: in the non-blank case each readiness flag starts true exactly when its
feature is not requested: `selectorsResolved` iff the normalized selector list
is empty, `predicateResolved` iff no predicate is supplied, `networkResolved`
iff the effective `waitNetworkIdle` flag is false. -/
theorem initial_readiness_flags (cfg : Config) (uri : String) (w : WaitOpts)
    (plOpts : PageLoaderOpts) (p : NetworkParams) (init : ReadinessState)
    (h : openAndWait cfg uri w = .loaded plOpts p init) :
    init.selectorsResolved = (normalizeSelector w.selector).isEmpty
    ∧ init.predicateResolved = w.predicate.isNone
    ∧ init.networkResolved
        = !((w.waitNetworkIdle.getD cfg.openAndWaitOpts.waitNetworkIdle)
              && sessionCapability cfg) := by
  simp only [openAndWait] at h
  split at h
  · exact absurd h (by simp)
  · injection h with h1 h2 h3
    subst h3
    refine ⟨rfl, rfl, ?_⟩
    have hcap : sessionCapability cfg = (isChrome cfg || isCDP cfg) := rfl
    simp [hcap]

/-- Witness for C8: with a selector, a predicate and an effective network wait
requested, all three flags start false. -/
theorem initial_readiness_flags_witness :
    ((false : Bool) = (normalizeSelector (some (SelectorArg.one "#app"))).isEmpty)
    ∧ ((false : Bool) = (some ()).isNone)
    ∧ ((false : Bool)
        = !(((some true).getD chromeCfg.openAndWaitOpts.waitNetworkIdle)
              && sessionCapability chromeCfg)) :=
  initial_readiness_flags chromeCfg "https://example.com"
    { emptyWaitOpts with
      selector := some (.one "#app")
      predicate := some Unit.unit
      waitNetworkIdle := some true } _ _ _ rfl

lemma shouldThrowErrorDefault_eq (m : Matches) :
    shouldThrowErrorDefault m
      = (!is.favicon m && (is.image m || is.stylesheet m || is.font m)) := by
  unfold shouldThrowErrorDefault
  cases hfav : is.favicon m <;> simp [hfav]

/-- C4: with `failOnNetworkError = true` and the default classification, a
failing match whose url ends in `"/favicon.ico"` never causes a rejection —
the handler leaves the state untouched, whatever the status code, headers or
ignore patterns. -/
theorem default_classifier_never_rejects_favicon
    (p : NetworkParams) (s : MachineState) (m : Matches)
    (hfail : p.failOnNetworkError = true)
    (hdef : p.shouldThrowError = shouldThrowErrorDefault)
    (hfav : jsEndsWith m.url "/favicon.ico" = true) :
    handleEvent p s (.networkError m) = s := by
  have hthrow : p.shouldThrowError m = false := by
    rw [hdef, shouldThrowErrorDefault_eq]
    have : is.favicon m = true := hfav
    simp [this]
  simp only [handleEvent]
  rw [if_neg (by simp [hfail]), if_neg (by simp [hthrow])]

/-- Witness for C4: a 404 favicon match under the default classifier. -/
theorem default_classifier_never_rejects_favicon_witness :
    handleEvent
      { failOnNetworkError := true, ignoreNetworkErrorsPatterns := [],
        shouldThrowError := shouldThrowErrorDefault }
      { flags := { selectorsResolved := true, predicateResolved := true,
                   networkResolved := false }, settled := none }
      (.networkError { url := "https://site.io/favicon.ico",
                       acceptHeader := some "image/avif", statusCode := 404 })
      = { flags := { selectorsResolved := true, predicateResolved := true,
                     networkResolved := false }, settled := none } :=
  default_classifier_never_rejects_favicon _ _ _ rfl rfl rfl

/-- Counterexample to C5 as stated: a failing match that is neither an image,
stylesheet, font nor favicon (a plain API response) is NOT treated as fatal by
the default classification — the handler leaves the promise pending instead of
rejecting with the network-error message. -/
theorem non_asset_failure_not_rejected :
    handleEvent
      { failOnNetworkError := true, ignoreNetworkErrorsPatterns := [],
        shouldThrowError := shouldThrowErrorDefault }
      { flags := { selectorsResolved := false, predicateResolved := false,
                   networkResolved := false }, settled := none }
      (.networkError { url := "https://api.example.com/data",
                       acceptHeader := none, statusCode := 500 })
      = { flags := { selectorsResolved := false, predicateResolved := false,
                     networkResolved := false }, settled := none }
    ∧ (none : Option Outcome)
        ≠ some (.failure "url: couldn't get content from https://api.example.com/data: 500") :=
  ⟨rfl, by simp⟩

/-- C5 (amended): with `failOnNetworkError = true`, the default classification
and a failing match not ignored by the caller patterns, the handler rejects
with `"url: couldn't get content from <url>: <statusCode>"` exactly when the
match is an image, stylesheet or font and not the favicon; every other
non-ignored failing match is ignored (no rejection). -/
theorem default_classifier_fatal_iff_asset
    (p : NetworkParams) (s : MachineState) (m : Matches)
    (hfail : p.failOnNetworkError = true)
    (hdef : p.shouldThrowError = shouldThrowErrorDefault)
    (hign : isMatchPatterns p.ignoreNetworkErrorsPatterns m.url = false)
    (hpend : s.settled = none) :
    handleEvent p s (.networkError m)
      = if !is.favicon m && (is.image m || is.stylesheet m || is.font m) then
          { s with settled := some (.failure
              ("url: couldn't get content from " ++ m.url ++ ": " ++ toString m.statusCode)) }
        else s := by
  simp only [handleEvent]
  rw [if_neg (by simp [hfail]), hign, hdef, shouldThrowErrorDefault_eq]
  simp only [Bool.not_false, Bool.true_and]
  split
  · rw [promiseReject_of_none _ s hpend]
    rfl
  · rfl

/-- Witness for C5 (amended): a failing stylesheet match is fatal with the
status-code message. -/
theorem default_classifier_fatal_iff_asset_witness :
    handleEvent
      { failOnNetworkError := true, ignoreNetworkErrorsPatterns := [],
        shouldThrowError := shouldThrowErrorDefault }
      { flags := { selectorsResolved := false, predicateResolved := false,
                   networkResolved := false }, settled := none }
      (.networkError { url := "https://cdn.site/app.css",
                       acceptHeader := some "text/css", statusCode := 404 })
      = { flags := { selectorsResolved := false, predicateResolved := false,
                     networkResolved := false },
          settled := some (.failure "url: couldn't get content from https://cdn.site/app.css: 404") } := by
  rw [default_classifier_fatal_iff_asset
      { failOnNetworkError := true, ignoreNetworkErrorsPatterns := [],
        shouldThrowError := shouldThrowErrorDefault }
      { flags := { selectorsResolved := false, predicateResolved := false,
                   networkResolved := false }, settled := none }
      { url := "https://cdn.site/app.css", acceptHeader := some "text/css", statusCode := 404 }
      rfl rfl rfl rfl]
  rfl

/-- C6: a failing match whose url matches a caller-supplied ignore pattern
(string patterns by substring containment, regex patterns by execution) never
causes a rejection: the handler leaves the state untouched. -/
theorem ignored_pattern_never_rejects (p : NetworkParams) (s : MachineState) (m : Matches)
    (h : isMatchPatterns p.ignoreNetworkErrorsPatterns m.url = true) :
    handleEvent p s (.networkError m) = s := by
  simp only [handleEvent]
  split
  · rfl
  · rw [if_neg (by simp [h])]

/-- Witness for C6: `ignoreNetworkErrorsPatterns = ["cdn.example.com"]` and a
failing match to `https://cdn.example.com/x.js` (otherwise fatal: stylesheet). -/
theorem ignored_pattern_never_rejects_witness :
    handleEvent
      { failOnNetworkError := true,
        ignoreNetworkErrorsPatterns := [Pattern.str "cdn.example.com"],
        shouldThrowError := shouldThrowErrorDefault }
      { flags := { selectorsResolved := false, predicateResolved := false,
                   networkResolved := false }, settled := none }
      (.networkError { url := "https://cdn.example.com/x.js",
                       acceptHeader := some "text/css", statusCode := 500 })
      = { flags := { selectorsResolved := false, predicateResolved := false,
                     networkResolved := false }, settled := none } :=
  ignored_pattern_never_rejects _ _ _ (by decide)

/-- C7: with effective `failOnNetworkError = false` the network-error handler
returns without effect for every match, regardless of patterns or
classification — no failing match ever causes a rejection. -/
theorem failOnNetworkError_false_never_rejects
    (p : NetworkParams) (s : MachineState) (m : Matches)
    (h : p.failOnNetworkError = false) :
    handleEvent p s (.networkError m) = s := by
  simp only [handleEvent]
  rw [if_pos (by simp [h])]

/-- Witness for C7: an otherwise-fatal stylesheet failure is ignored when
`failOnNetworkError` is false. -/
theorem failOnNetworkError_false_never_rejects_witness :
    handleEvent
      { failOnNetworkError := false, ignoreNetworkErrorsPatterns := [],
        shouldThrowError := shouldThrowErrorDefault }
      { flags := { selectorsResolved := true, predicateResolved := true,
                   networkResolved := false }, settled := none }
      (.networkError { url := "https://cdn.site/app.css",
                       acceptHeader := some "text/css", statusCode := 404 })
      = { flags := { selectorsResolved := true, predicateResolved := true,
                     networkResolved := false }, settled := none } :=
  failOnNetworkError_false_never_rejects _ _ _ rfl

/-- C9: the aggregate outcome settles exactly once. (1) A settled outcome is
final: every later event sequence leaves it unchanged (later resolutions and
errors are no-ops). (2) Starting pending, a success settlement implies all
three readiness flags are true at the end. (3) After any individual resolution
or load-completion event that leaves all three flags true, a pending promise
settles with success. (4) A pending promise settles with the failure message
of the first unfiltered error signal. -/
theorem settlement_exactly_once :
    (∀ (p : NetworkParams) (s : MachineState) (evs : List LoadEvent) (o : Outcome),
        s.settled = some o → (run p s evs).settled = some o)
    ∧ (∀ (p : NetworkParams) (s : MachineState) (evs : List LoadEvent),
        s.settled = none → (run p s evs).settled = some Outcome.success →
          allResolved (run p s evs) = true)
    ∧ (∀ (p : NetworkParams) (s : MachineState) (e : LoadEvent),
        s.settled = none → isCheckEvent e = true →
          allResolved (handleEvent p s e) = true →
          (handleEvent p s e).settled = some Outcome.success)
    ∧ (∀ (p : NetworkParams) (s : MachineState) (e : LoadEvent) (msg : String),
        s.settled = none → fatalMessage p e = some msg →
          (handleEvent p s e).settled = some (Outcome.failure msg)) := by
  refine ⟨fun p s evs o h => run_of_some p evs s o h, ?_, ?_, ?_⟩
  · intro p s evs hn hsucc
    refine run_success_inv p evs s (fun hs => ?_) hsucc
    rw [hn] at hs
    exact absurd hs (by simp)
  · intro p s e hn hck hall
    cases e with
    | selectorsExist =>
        rw [handleEvent] at hall ⊢
        exact checkLoaded_resolves _ hn hall
    | predicateResolved =>
        rw [handleEvent] at hall ⊢
        exact checkLoaded_resolves _ hn hall
    | networkResolved =>
        rw [handleEvent] at hall ⊢
        exact checkLoaded_resolves _ hn hall
    | loadDone =>
        rw [handleEvent] at hall ⊢
        exact checkLoaded_resolves _ hn hall
    | pageLoadError m0 => simp [isCheckEvent] at hck
    | selectorsError m0 => simp [isCheckEvent] at hck
    | predicateError m0 => simp [isCheckEvent] at hck
    | networkError m0 => simp [isCheckEvent] at hck
  · intro p s e msg hn hf
    exact handleEvent_fatal p s e msg hn hf

/-- Witness for C9: a settled failure survives later resolutions; a pending
promise with all flags resolved settles success on `networkResolved`; a
pending promise settles with the navigation failure message. -/
theorem settlement_exactly_once_witness :
    (run
      { failOnNetworkError := true, ignoreNetworkErrorsPatterns := [],
        shouldThrowError := shouldThrowErrorDefault }
      { flags := { selectorsResolved := false, predicateResolved := false,
                   networkResolved := false }, settled := some (.failure "boom") }
      [.selectorsExist, .predicateResolved, .networkResolved]).settled
        = some (.failure "boom")
    ∧ (handleEvent
      { failOnNetworkError := true, ignoreNetworkErrorsPatterns := [],
        shouldThrowError := shouldThrowErrorDefault }
      { flags := { selectorsResolved := true, predicateResolved := true,
                   networkResolved := false }, settled := none }
      .networkResolved).settled = some Outcome.success
    ∧ (handleEvent
      { failOnNetworkError := true, ignoreNetworkErrorsPatterns := [],
        shouldThrowError := shouldThrowErrorDefault }
      { flags := { selectorsResolved := false, predicateResolved := false,
                   networkResolved := false }, settled := none }
      (.pageLoadError "nav failed")).settled = some (.failure ("url: " ++ "nav failed")) :=
  ⟨settlement_exactly_once.1 _ _ _ _ rfl,
   settlement_exactly_once.2.2.1 _ _ .networkResolved rfl rfl (by decide),
   settlement_exactly_once.2.2.2 _ _ (.pageLoadError "nav failed") ("url: " ++ "nav failed")
     rfl rfl⟩

/-- C10: a caller-supplied `shouldThrowError` fully replaces the default
classification, favicon exclusion included: the resolved classifier is the
override, and for every pending state and failing match not ignored by the
patterns, the handler rejects with the network-error message iff the override
returns true — in particular an override returning true on a favicon url makes
that favicon match reject. -/
theorem override_replaces_default_classifier
    (cfg : Config) (uri : String) (w : WaitOpts) (f : Matches → Bool)
    (plOpts : PageLoaderOpts) (p : NetworkParams) (init : ReadinessState)
    (hover : w.shouldThrowError = some f)
    (h : openAndWait cfg uri w = .loaded plOpts p init) :
    p.shouldThrowError = f
    ∧ ∀ (s : MachineState) (m : Matches), s.settled = none → p.failOnNetworkError = true →
        isMatchPatterns p.ignoreNetworkErrorsPatterns m.url = false →
        ((handleEvent p s (.networkError m)).settled
            = some (.failure ("url: couldn't get content from " ++ m.url ++ ": "
                ++ toString m.statusCode))
          ↔ f m = true) := by
  simp only [openAndWait] at h
  split at h
  · exact absurd h (by simp)
  · injection h with h1 h2 h3
    subst h2
    have hst : (w.shouldThrowError.getD shouldThrowErrorDefault) = f := by
      rw [hover]
      rfl
    refine ⟨hst, ?_⟩
    intro s m hpend hfail hign
    have hfail2 : w.failOnNetworkError.getD cfg.openAndWaitOpts.failOnNetworkError = true := hfail
    simp only [handleEvent]
    rw [if_neg (by simp [hfail2])]
    rw [hign]
    simp only [Bool.not_false, Bool.true_and]
    cases hf : f m with
    | false =>
        rw [if_neg (by simp [hst, hf])]
        rw [hpend]
        simp [hf]
    | true =>
        rw [if_pos (by simp [hst, hf])]
        rw [promiseReject_of_none _ s hpend]
        simp [networkErrorMessage, hf]

/-- Witness for C10: an override that always returns true makes a favicon
match reject, against a session whose defaults would never reject. -/
theorem override_replaces_default_classifier_witness :
    (handleEvent
      { failOnNetworkError := true, ignoreNetworkErrorsPatterns := [],
        shouldThrowError := fun _ => true }
      { flags := { selectorsResolved := true, predicateResolved := true,
                   networkResolved := true }, settled := none }
      (.networkError { url := "https://site.io/favicon.ico",
                       acceptHeader := some "image/avif", statusCode := 404 })).settled
      = some (.failure ("url: couldn't get content from " ++ "https://site.io/favicon.ico"
          ++ ": " ++ toString 404)) :=
  ((override_replaces_default_classifier firefoxCfg "https://site.io"
      { emptyWaitOpts with
        failOnNetworkError := some true
        shouldThrowError := some (fun _ => true) }
      (fun _ => true) _ _ _ rfl rfl).2
    { flags := { selectorsResolved := true, predicateResolved := true,
                 networkResolved := true }, settled := none }
    { url := "https://site.io/favicon.ico", acceptHeader := some "image/avif",
      statusCode := 404 }
    rfl rfl rfl).mpr rfl
